import Mathlib

set_option linter.unusedVariables false

/-
Shallow embedding of src/aws-wp.go.

The program is a sequential orchestration of AWS EC2 calls.  Each remote
call is modelled by a scripted response stored in a `World`; every embedded
function returns, next to its Go return value, the list of API calls it
issued and the diagnostics it printed, so that claims about "which calls
were made" and "what was reported" are statable.
-/

namespace AwsWp

/-- Errors returned by the AWS SDK.  `apiErr code` is an error that matches
`smithy.APIError` via `errors.As`, carrying `ErrorCode()`; `genericErr` is
any error for which `errors.As(err, &ae)` fails (e.g. a transport error). -/
inductive ApiError where
  | apiErr (code : String) : ApiError
  | genericErr : ApiError
deriving DecidableEq, Repr

/-- A security group as returned by DescribeSecurityGroups /
CreateSecurityGroup; the source only reads `GroupId` (dereferenced, so
modelled as a present value). -/
structure SecurityGroup where
  groupId : String
deriving DecidableEq, Repr

/-- One EC2 instance inside a DescribeInstances reservation.  The source
dereferences `State.Code` (an int32) and `PublicDnsName`, so both are
modelled as present values. -/
structure Instance where
  stateCode : Int
  publicDnsName : String
deriving DecidableEq, Repr

/-- One reservation of a DescribeInstances result. -/
structure Reservation where
  instances : List Instance
deriving DecidableEq, Repr

/-- One scripted response to a DescribeInstances call: either the call
errors, or it returns a list of reservations. -/
inductive DescribeResult where
  | err : DescribeResult
  | ok (reservations : List Reservation) : DescribeResult
deriving DecidableEq, Repr

/-- The remote API calls the program can issue (the program's whole remote
surface).  The security-group calls carry the group name they were issued
with. -/
inductive ApiCall where
  | describeSecurityGroups (name : String)
  | createSecurityGroup (name : String)
  | authorizeSecurityGroupIngress
  | runInstances
  | createTags
  | describeInstances
deriving DecidableEq, Repr

/-- The diagnostics the program prints (each constructor stands for one of
the `fmt.Println` / `log.Printf` sites in the source). -/
inductive Report where
  | missingAmi
  | sgDescribeError
  | sgCreateError
  | runInstancesError
  | tagError
  | describeInstancesError
  | instanceFailed
  | stillPending
deriving DecidableEq, Repr

/-- Scripted behaviour of the EC2 client: the response each remote call
would produce.  `runInstances` is modelled by the identifier of the first
instance of a successful result (`*result.Instances[0].InstanceId`, which
the source dereferences unconditionally).  `authorizeIngress` is listed for
completeness: the source discards both return values of
`AuthorizeSecurityGroupIngress`, so no embedded function reads it. -/
structure World where
  describeSecurityGroups : Except ApiError (List SecurityGroup)
  createSecurityGroup : Except ApiError SecurityGroup
  authorizeIngress : Except ApiError Unit
  runInstances : Except ApiError String
  createTags : Except ApiError Unit
  describeInstances : List DescribeResult
deriving Repr

/-- The fixed group name used by getSecurityGroup (`groupName` in the
source). -/
def groupName : String := "wordpress-sg"

/-- Result of the embedded getSecurityGroup: the returned identifier, the
API calls issued (in order) and the diagnostics printed. -/
structure SgOut where
  groupId : String
  calls : List ApiCall
  reports : List Report
deriving DecidableEq, Repr

/-- The fall-through tail of getSecurityGroup (source lines 99-137): create
the group, and on success authorize ingress.  The source ignores both
return values of `AuthorizeSecurityGroupIngress` and then returns
`*securityGroup.GroupId`, so the authorize outcome never affects the
result. -/
def getSecurityGroupCreate (w : World) : SgOut :=
  match w.createSecurityGroup with
  | Except.error _ =>
    { groupId := ""
      calls := [ApiCall.describeSecurityGroups groupName, ApiCall.createSecurityGroup groupName]
      reports := [Report.sgCreateError] }
  | Except.ok sg =>
    { groupId := sg.groupId
      calls := [ApiCall.describeSecurityGroups groupName, ApiCall.createSecurityGroup groupName,
                ApiCall.authorizeSecurityGroupIngress]
      reports := [] }

/-- Embedded getSecurityGroup (source lines 76-138).  Mirrors the source's
control flow: a successful lookup with at least one group returns its id;
an error matching `smithy.APIError` with a code other than
"InvalidGroup.NotFound" prints and returns ""; every other case — a
successful lookup with zero groups, an APIError with code
"InvalidGroup.NotFound", or an error that does not match `smithy.APIError`
at all — falls through to the create path. -/
def getSecurityGroup (w : World) : SgOut :=
  match w.describeSecurityGroups with
  | Except.ok (g :: _) =>
    { groupId := g.groupId, calls := [ApiCall.describeSecurityGroups groupName], reports := [] }
  | Except.ok [] => getSecurityGroupCreate w
  | Except.error (ApiError.apiErr code) =>
    if code ≠ "InvalidGroup.NotFound" then
      { groupId := ""
        calls := [ApiCall.describeSecurityGroups groupName]
        reports := [Report.sgDescribeError] }
    else getSecurityGroupCreate w
  | Except.error ApiError.genericErr => getSecurityGroupCreate w

/-- Embedded setTagName (source lines 140-157): issues CreateTags, prints a
diagnostic on error, returns nothing.  Result: (calls issued, reports
printed). -/
def setTagName (w : World) : List ApiCall × List Report :=
  ([ApiCall.createTags],
   match w.createTags with
   | Except.error _ => [Report.tagError]
   | Except.ok _ => [])

/-- Result of the embedded createInstance. -/
structure CreateOut where
  instanceId : String
  calls : List ApiCall
  reports : List Report
deriving DecidableEq, Repr

/-- Embedded createInstance (source lines 49-74): resolves the security
group, issues RunInstances; on error prints and returns "", on success tags
the instance (ignoring the tag outcome) and returns the first instance's
identifier. -/
def createInstance (w : World) (imageId : String) : CreateOut :=
  let sg := getSecurityGroup w
  match w.runInstances with
  | Except.error _ =>
    { instanceId := ""
      calls := sg.calls ++ [ApiCall.runInstances]
      reports := sg.reports ++ [Report.runInstancesError] }
  | Except.ok instId =>
    let tag := setTagName w
    { instanceId := instId
      calls := sg.calls ++ [ApiCall.runInstances] ++ tag.1
      reports := sg.reports ++ tag.2 }

/-- Classification of one DescribeInstances response by the inner loops of
waitRunning (source lines 173-187). -/
inductive ScanResult where
  | running (publicDnsName : String) : ScanResult
  | failed : ScanResult
  | allPending : ScanResult
deriving DecidableEq, Repr

/-- The instances of a response in the order the two nested `for` loops of
waitRunning visit them. -/
def reservationsInstances (rs : List Reservation) : List Instance :=
  rs.flatMap Reservation.instances

/-- The inner loops of waitRunning over the instances of one response:
the first instance with state code 16 yields `running` with its public DNS
name; otherwise the first instance with a nonzero code yields `failed`;
each code-0 instance before that logs "Still pending..." (counted in the
first component). -/
def scanInstances : List Instance → Nat × ScanResult
  | [] => (0, ScanResult.allPending)
  | i :: rest =>
    if i.stateCode = 16 then (0, ScanResult.running i.publicDnsName)
    else if i.stateCode ≠ 0 then (0, ScanResult.failed)
    else ((scanInstances rest).1 + 1, (scanInstances rest).2)

/-- Outcome of the embedded waitRunning on a finite script of responses:
either the function returned (a "http://"-prefixed address or ""), or the
script ran out while the loop was still polling (`scriptExhausted`: the
real loop would keep querying forever). -/
inductive PollOutcome where
  | url (address : String) : PollOutcome
  | empty : PollOutcome
  | scriptExhausted : PollOutcome
deriving DecidableEq, Repr

/-- Trace of the embedded waitRunning: its outcome, the sleeps it performed
in order (durations in seconds), the number of DescribeInstances queries it
issued, and the number of "Still pending..." log lines it printed. -/
structure PollTrace where
  result : PollOutcome
  sleeps : List Nat
  queries : Nat
  pendingLogs : Nat
deriving DecidableEq, Repr

/-- Embedded waitRunning (source lines 159-190), driven by a finite script
of DescribeInstances responses.  A query error prints and returns ""
immediately; a response whose scan finds code 16 sleeps 7 seconds and
returns "http://" ++ the public DNS name; a scan that finds another
nonzero code prints and returns ""; otherwise the loop sleeps 3 seconds
and queries again. -/
def waitRunning : List DescribeResult → PollTrace
  | [] => { result := PollOutcome.scriptExhausted, sleeps := [], queries := 0, pendingLogs := 0 }
  | DescribeResult.err :: _ =>
    { result := PollOutcome.empty, sleeps := [], queries := 1, pendingLogs := 0 }
  | DescribeResult.ok rs :: rest =>
    match scanInstances (reservationsInstances rs) with
    | (n, ScanResult.running dns) =>
      { result := PollOutcome.url ("http://" ++ dns), sleeps := [7], queries := 1, pendingLogs := n }
    | (n, ScanResult.failed) =>
      { result := PollOutcome.empty, sleeps := [], queries := 1, pendingLogs := n }
    | (n, ScanResult.allPending) =>
      { result := (waitRunning rest).result
        sleeps := 3 :: (waitRunning rest).sleeps
        queries := (waitRunning rest).queries + 1
        pendingLogs := n + (waitRunning rest).pendingLogs }

/-- Result of the embedded main: the remote API calls issued, the
diagnostics printed, and the address handed to openBrowser (none when the
poll returned "" or the workflow stopped earlier). -/
structure MainOut where
  calls : List ApiCall
  reports : List Report
  browserUrl : Option String
deriving DecidableEq, Repr

/-- Embedded main (source lines 20-39): an empty image id prints the
missing-AMI message and returns before the client is even constructed;
otherwise createInstance runs, then waitRunning polls, and a non-empty
returned address is opened in the browser. -/
def main (imageId : String) (w : World) : MainOut :=
  if imageId = "" then
    { calls := [], reports := [Report.missingAmi], browserUrl := none }
  else
    let ci := createInstance w imageId
    let pt := waitRunning w.describeInstances
    { calls := ci.calls ++ List.replicate pt.queries ApiCall.describeInstances
      reports := ci.reports
      browserUrl :=
        match pt.result with
        | PollOutcome.url s => if s = "" then none else some s
        | _ => none }

/-! ## Equation lemmas for the poll loop -/

/-- A query error terminates the loop at once: empty result, no sleep. -/
theorem waitRunning_err_cons (rest : List DescribeResult) :
    waitRunning (DescribeResult.err :: rest) =
      { result := PollOutcome.empty, sleeps := [], queries := 1, pendingLogs := 0 } := rfl

/-- A response whose scan finds a running instance terminates the loop with
the 7-second settle sleep and the url result. -/
theorem waitRunning_running_cons (rs : List Reservation) (rest : List DescribeResult)
    (dns : String)
    (h : (scanInstances (reservationsInstances rs)).2 = ScanResult.running dns) :
    waitRunning (DescribeResult.ok rs :: rest) =
      { result := PollOutcome.url ("http://" ++ dns), sleeps := [7], queries := 1,
        pendingLogs := (scanInstances (reservationsInstances rs)).1 } := by
  rcases hsc : scanInstances (reservationsInstances rs) with ⟨n, sr⟩
  rw [hsc] at h
  simp only at h
  subst h
  simp [waitRunning, hsc]

/-- A response whose scan finds a failed instance terminates the loop with
the empty result and no sleep. -/
theorem waitRunning_failed_cons (rs : List Reservation) (rest : List DescribeResult)
    (h : (scanInstances (reservationsInstances rs)).2 = ScanResult.failed) :
    waitRunning (DescribeResult.ok rs :: rest) =
      { result := PollOutcome.empty, sleeps := [], queries := 1,
        pendingLogs := (scanInstances (reservationsInstances rs)).1 } := by
  rcases hsc : scanInstances (reservationsInstances rs) with ⟨n, sr⟩
  rw [hsc] at h
  simp only at h
  subst h
  simp [waitRunning, hsc]

/-- A wholly pending response sleeps 3 seconds and continues with the rest
of the script. -/
theorem waitRunning_pending_cons (rs : List Reservation) (rest : List DescribeResult)
    (h : (scanInstances (reservationsInstances rs)).2 = ScanResult.allPending) :
    waitRunning (DescribeResult.ok rs :: rest) =
      { result := (waitRunning rest).result
        sleeps := 3 :: (waitRunning rest).sleeps
        queries := (waitRunning rest).queries + 1
        pendingLogs := (scanInstances (reservationsInstances rs)).1 + (waitRunning rest).pendingLogs } := by
  rcases hsc : scanInstances (reservationsInstances rs) with ⟨n, sr⟩
  rw [hsc] at h
  simp only at h
  subst h
  simp [waitRunning, hsc]

/-- A successful response every one of whose instances is pending (state
code 0 up to the point the loops stop scanning). -/
def pendingResp (r : DescribeResult) : Prop :=
  ∃ rs, r = DescribeResult.ok rs ∧
    (scanInstances (reservationsInstances rs)).2 = ScanResult.allPending

/-- Running the loop over a script whose first section is wholly pending
responses: the loop sleeps 3 seconds per pending response, issues one query
per pending response, and then behaves as on the remaining script. -/
theorem waitRunning_pending_append (pre rest : List DescribeResult)
    (h : ∀ r ∈ pre, pendingResp r) :
    (waitRunning (pre ++ rest)).result = (waitRunning rest).result ∧
    (waitRunning (pre ++ rest)).sleeps
        = List.replicate pre.length 3 ++ (waitRunning rest).sleeps ∧
    (waitRunning (pre ++ rest)).queries = pre.length + (waitRunning rest).queries := by
  induction pre with
  | nil => simp
  | cons r pre ih =>
    obtain ⟨rs, hr, hsc⟩ := h r (by simp)
    subst hr
    have htail : ∀ x ∈ pre, pendingResp x := fun x hx => h x (by simp [hx])
    obtain ⟨ih1, ih2, ih3⟩ := ih htail
    rw [List.cons_append, waitRunning_pending_cons rs (pre ++ rest) hsc]
    refine ⟨ih1, ?_, ?_⟩
    · simp [ih2, List.replicate_succ]
    · simp [ih3]; omega

/-- A running-scan yields an instance of the scanned list with state code
16 whose public DNS name is the reported one. -/
theorem scanInstances_running_mem (l : List Instance) (dns : String)
    (h : (scanInstances l).2 = ScanResult.running dns) :
    ∃ i ∈ l, i.stateCode = 16 ∧ i.publicDnsName = dns := by
  induction l with
  | nil => simp [scanInstances] at h
  | cons i rest ih =>
    by_cases h16 : i.stateCode = 16
    · have hr : (scanInstances (i :: rest)).2 = ScanResult.running i.publicDnsName := by
        simp [scanInstances, h16]
      rw [hr] at h
      simp only [ScanResult.running.injEq] at h
      exact ⟨i, by simp, h16, h⟩
    · by_cases h0 : i.stateCode = 0
      · have hr : (scanInstances (i :: rest)).2 = (scanInstances rest).2 := by
          simp [scanInstances, h16, h0]
        rw [hr] at h
        obtain ⟨j, hj, hc⟩ := ih h
        exact ⟨j, by simp [hj], hc⟩
      · simp [scanInstances, h16, h0] at h

/-! ## Claims -/

/-- C2: for every scripted sequence of successful status responses
[pending, pending, running], waitRunning sleeps at least twice before
returning (its sleeps are exactly [3, 3, 7] seconds), and the returned
value is "http://" concatenated with the public address reported by the
final, running response. -/
theorem c2_poll_pending_pending_running (rs1 rs2 rs3 : List Reservation) (addr : String)
    (h1 : (scanInstances (reservationsInstances rs1)).2 = ScanResult.allPending)
    (h2 : (scanInstances (reservationsInstances rs2)).2 = ScanResult.allPending)
    (h3 : (scanInstances (reservationsInstances rs3)).2 = ScanResult.running addr) :
    (waitRunning [DescribeResult.ok rs1, DescribeResult.ok rs2, DescribeResult.ok rs3]).result
        = PollOutcome.url ("http://" ++ addr) ∧
    (waitRunning [DescribeResult.ok rs1, DescribeResult.ok rs2, DescribeResult.ok rs3]).sleeps
        = [3, 3, 7] ∧
    2 ≤ (waitRunning [DescribeResult.ok rs1, DescribeResult.ok rs2,
          DescribeResult.ok rs3]).sleeps.length := by
  rw [waitRunning_pending_cons rs1 [DescribeResult.ok rs2, DescribeResult.ok rs3] h1,
      waitRunning_pending_cons rs2 [DescribeResult.ok rs3] h2,
      waitRunning_running_cons rs3 [] addr h3]
  simp

/-- C2 witness: the concrete script pending("a"), pending("b"),
running("ec2-host") produces "http://ec2-host" after sleeps [3, 3, 7]. -/
theorem c2_poll_pending_pending_running_witness :
    (waitRunning [DescribeResult.ok [⟨[⟨0, "a"⟩]⟩], DescribeResult.ok [⟨[⟨0, "b"⟩]⟩],
        DescribeResult.ok [⟨[⟨16, "ec2-host"⟩]⟩]]).result
      = PollOutcome.url ("http://" ++ "ec2-host") ∧
    (waitRunning [DescribeResult.ok [⟨[⟨0, "a"⟩]⟩], DescribeResult.ok [⟨[⟨0, "b"⟩]⟩],
        DescribeResult.ok [⟨[⟨16, "ec2-host"⟩]⟩]]).sleeps = [3, 3, 7] ∧
    2 ≤ (waitRunning [DescribeResult.ok [⟨[⟨0, "a"⟩]⟩], DescribeResult.ok [⟨[⟨0, "b"⟩]⟩],
        DescribeResult.ok [⟨[⟨16, "ec2-host"⟩]⟩]]).sleeps.length :=
  c2_poll_pending_pending_running [⟨[⟨0, "a"⟩]⟩] [⟨[⟨0, "b"⟩]⟩] [⟨[⟨16, "ec2-host"⟩]⟩]
    "ec2-host" (by decide) (by decide) (by decide)

/-- C6: on the first response whose scan reaches a status code that is
neither 0 (pending) nor 16 (running), waitRunning returns the empty
string, having issued exactly one query per earlier (pending) response
plus the failing one, and slept only for the earlier pending responses. -/
theorem c6_failed_status_terminates (pre : List DescribeResult) (rs : List Reservation)
    (rest : List DescribeResult)
    (hpre : ∀ r ∈ pre, pendingResp r)
    (hfail : (scanInstances (reservationsInstances rs)).2 = ScanResult.failed) :
    (waitRunning (pre ++ DescribeResult.ok rs :: rest)).result = PollOutcome.empty ∧
    (waitRunning (pre ++ DescribeResult.ok rs :: rest)).queries = pre.length + 1 ∧
    (waitRunning (pre ++ DescribeResult.ok rs :: rest)).sleeps
        = List.replicate pre.length 3 := by
  obtain ⟨e1, e2, e3⟩ :=
    waitRunning_pending_append pre (DescribeResult.ok rs :: rest) hpre
  rw [waitRunning_failed_cons rs rest hfail] at e1 e2 e3
  exact ⟨e1, by simpa using e3, by simpa using e2⟩

/-- C6 witness: after one pending response, a response with state code 48
(terminated) makes the loop return empty with 2 queries and 1 sleep. -/
theorem c6_failed_status_terminates_witness :
    (waitRunning ([DescribeResult.ok [⟨[⟨0, "a"⟩]⟩]]
        ++ DescribeResult.ok [⟨[⟨48, "b"⟩]⟩] :: [])).result = PollOutcome.empty ∧
    (waitRunning ([DescribeResult.ok [⟨[⟨0, "a"⟩]⟩]]
        ++ DescribeResult.ok [⟨[⟨48, "b"⟩]⟩] :: [])).queries = 1 + 1 ∧
    (waitRunning ([DescribeResult.ok [⟨[⟨0, "a"⟩]⟩]]
        ++ DescribeResult.ok [⟨[⟨48, "b"⟩]⟩] :: [])).sleeps = List.replicate 1 3 := by
  have h := c6_failed_status_terminates [DescribeResult.ok [⟨[⟨0, "a"⟩]⟩]]
    [⟨[⟨48, "b"⟩]⟩] []
    (by intro r hr
        simp only [List.mem_singleton] at hr
        exact ⟨[⟨[⟨0, "a"⟩]⟩], hr, by decide⟩)
    (by decide)
  simpa using h

/-- C7: when a status query itself errors, waitRunning returns the empty
string immediately upon that error: one query for each earlier pending
response plus the erroring one, and no query or sleep after it. -/
theorem c7_query_error_terminates (pre rest : List DescribeResult)
    (hpre : ∀ r ∈ pre, pendingResp r) :
    (waitRunning (pre ++ DescribeResult.err :: rest)).result = PollOutcome.empty ∧
    (waitRunning (pre ++ DescribeResult.err :: rest)).queries = pre.length + 1 ∧
    (waitRunning (pre ++ DescribeResult.err :: rest)).sleeps
        = List.replicate pre.length 3 := by
  obtain ⟨e1, e2, e3⟩ := waitRunning_pending_append pre (DescribeResult.err :: rest) hpre
  rw [waitRunning_err_cons rest] at e1 e2 e3
  exact ⟨e1, by simpa using e3, by simpa using e2⟩

/-- C7 witness: after one pending response, an erroring query makes the
loop return empty with 2 queries and 1 sleep, regardless of what the
script would have answered later. -/
theorem c7_query_error_terminates_witness :
    (waitRunning ([DescribeResult.ok [⟨[⟨0, "a"⟩]⟩]]
        ++ DescribeResult.err :: [DescribeResult.ok [⟨[⟨16, "late"⟩]⟩]])).result
      = PollOutcome.empty ∧
    (waitRunning ([DescribeResult.ok [⟨[⟨0, "a"⟩]⟩]]
        ++ DescribeResult.err :: [DescribeResult.ok [⟨[⟨16, "late"⟩]⟩]])).queries = 1 + 1 ∧
    (waitRunning ([DescribeResult.ok [⟨[⟨0, "a"⟩]⟩]]
        ++ DescribeResult.err :: [DescribeResult.ok [⟨[⟨16, "late"⟩]⟩]])).sleeps
      = List.replicate 1 3 :=
  c7_query_error_terminates [DescribeResult.ok [⟨[⟨0, "a"⟩]⟩]]
    [DescribeResult.ok [⟨[⟨16, "late"⟩]⟩]]
    (by intro r hr
        simp only [List.mem_singleton] at hr
        exact ⟨[⟨[⟨0, "a"⟩]⟩], hr, by decide⟩)

/-- C9: waitRunning surfaces a non-empty value only for a Running
instance: whenever the loop returns a url, some successful response in the
script contains an instance observed with state code 16, and the returned
string is exactly "http://" followed by that instance's public address.
All other returns are the empty string (PollOutcome.empty). -/
theorem c9_url_only_when_running (script : List DescribeResult) (s : String)
    (h : (waitRunning script).result = PollOutcome.url s) :
    ∃ rs, DescribeResult.ok rs ∈ script ∧
      ∃ i ∈ reservationsInstances rs,
        i.stateCode = 16 ∧ s = "http://" ++ i.publicDnsName := by
  induction script with
  | nil => simp [waitRunning] at h
  | cons r rest ih =>
    cases r with
    | err => rw [waitRunning_err_cons rest] at h; simp at h
    | ok rs =>
      rcases hsc : (scanInstances (reservationsInstances rs)).2 with dns | _ | _
      · rw [waitRunning_running_cons rs rest dns hsc] at h
        simp only [PollOutcome.url.injEq] at h
        obtain ⟨i, hi, h16, hdns⟩ := scanInstances_running_mem _ dns hsc
        exact ⟨rs, by simp, i, hi, h16, by rw [← h, hdns]⟩
      · rw [waitRunning_failed_cons rs rest hsc] at h
        simp at h
      · rw [waitRunning_pending_cons rs rest hsc] at h
        simp only at h
        obtain ⟨rs2, hmem, hrest⟩ := ih h
        exact ⟨rs2, by simp [hmem], hrest⟩

/-- C9 witness: on a script whose only response holds a running instance
at "host", the url result is traced back to that instance. -/
theorem c9_url_only_when_running_witness :
    ∃ rs, DescribeResult.ok rs ∈ [DescribeResult.ok [⟨[⟨16, "host"⟩]⟩]] ∧
      ∃ i ∈ reservationsInstances rs,
        i.stateCode = 16 ∧ "http://" ++ "host" = "http://" ++ i.publicDnsName :=
  c9_url_only_when_running [DescribeResult.ok [⟨[⟨16, "host"⟩]⟩]] ("http://" ++ "host") rfl

/-- C10 (implicit): a successful response with zero reservations (or zero
instances) matches none of the running / failed / pending cases of the
inner loops: the loop prints no pending log for it, sleeps 3 seconds and
queries again.  Hence on every finite script of such empty responses the
loop never returns — one query and one 3-second sleep per response,
outcome still open (scriptExhausted) — which is the finite rendering of
nontermination on an infinite sequence of empty successful responses. -/
theorem c10_empty_responses_never_return (script : List DescribeResult)
    (h : ∀ r ∈ script, ∃ rs, r = DescribeResult.ok rs ∧ reservationsInstances rs = []) :
    waitRunning script =
      { result := PollOutcome.scriptExhausted
        sleeps := List.replicate script.length 3
        queries := script.length
        pendingLogs := 0 } := by
  induction script with
  | nil => rfl
  | cons r rest ih =>
    obtain ⟨rs, hr, hflat⟩ := h r (by simp)
    subst hr
    have hsc : scanInstances (reservationsInstances rs) = (0, ScanResult.allPending) := by
      rw [hflat]; rfl
    rw [waitRunning_pending_cons rs rest (by rw [hsc]),
        ih (fun x hx => h x (by simp [hx]))]
    simp [hsc, List.replicate_succ]

/-- C10 witness: two successful responses with zero reservations produce
two queries, two 3-second sleeps, no pending log and no return. -/
theorem c10_empty_responses_never_return_witness :
    waitRunning [DescribeResult.ok [], DescribeResult.ok []] =
      { result := PollOutcome.scriptExhausted
        sleeps := List.replicate 2 3
        queries := 2
        pendingLogs := 0 } :=
  c10_empty_responses_never_return [DescribeResult.ok [], DescribeResult.ok []]
    (by intro r hr
        refine ⟨[], ?_, rfl⟩
        simp only [List.mem_cons, List.not_mem_nil, or_false] at hr
        rcases hr with h1 | h1 <;> simp [h1])

/-! ## Security-group and main claims -/

/-- A world whose lookup fails with an error that does not match
smithy.APIError (no error code available), while creation would succeed. -/
def c1WorldGeneric : World :=
  { describeSecurityGroups := Except.error ApiError.genericErr
    createSecurityGroup := Except.ok ⟨"sg-new"⟩
    authorizeIngress := Except.ok ()
    runInstances := Except.ok "i-0"
    createTags := Except.ok ()
    describeInstances := [] }

/-- A world whose lookup fails with the API error code
InvalidGroup.NotFound, while creation succeeds with group "sg-a". -/
def c1WorldNotFound : World :=
  { describeSecurityGroups := Except.error (ApiError.apiErr "InvalidGroup.NotFound")
    createSecurityGroup := Except.ok ⟨"sg-a"⟩
    authorizeIngress := Except.ok ()
    runInstances := Except.ok "i-0"
    createTags := Except.ok ()
    describeInstances := [] }

/-- A world whose lookup fails with an API error code other than
InvalidGroup.NotFound. -/
def c1WorldOther : World :=
  { describeSecurityGroups := Except.error (ApiError.apiErr "Throttling")
    createSecurityGroup := Except.ok ⟨"sg-b"⟩
    authorizeIngress := Except.ok ()
    runInstances := Except.ok "i-0"
    createTags := Except.ok ()
    describeInstances := [] }

/-- C1 counterexample: a lookup failure that is an error but not an
InvalidGroup.NotFound API error — here an error carrying no API error code
at all, such as a transport error — does NOT make getSecurityGroup return
the empty sentinel without creating: the source's errors.As guard falls
through, CreateSecurityGroup is invoked and its group id is returned. -/
theorem c1_counterexample :
    ApiCall.createSecurityGroup groupName ∈ (getSecurityGroup c1WorldGeneric).calls ∧
    (getSecurityGroup c1WorldGeneric).groupId = "sg-new" ∧
    (getSecurityGroup c1WorldGeneric).groupId ≠ "" := by
  refine ⟨?_, by decide, by decide⟩
  decide

/-- C1 (amended): on a lookup failing with API error code
InvalidGroup.NotFound, getSecurityGroup invokes create then (creation
succeeding) authorize, each exactly once; on a lookup failing with an API
error carrying any other code it invokes no create and returns the empty
sentinel; but on a lookup failing with an error that matches no API error
code, it falls through to the create path and returns the created group's
identifier. -/
theorem c1_amended_lookup_error_dispatch (w : World) :
    (w.describeSecurityGroups = Except.error (ApiError.apiErr "InvalidGroup.NotFound") →
      ∀ sg, w.createSecurityGroup = Except.ok sg →
        (getSecurityGroup w).calls =
          [ApiCall.describeSecurityGroups groupName, ApiCall.createSecurityGroup groupName,
           ApiCall.authorizeSecurityGroupIngress] ∧
        (getSecurityGroup w).groupId = sg.groupId) ∧
    (∀ code, code ≠ "InvalidGroup.NotFound" →
      w.describeSecurityGroups = Except.error (ApiError.apiErr code) →
        (getSecurityGroup w).groupId = "" ∧
        ∀ n, ApiCall.createSecurityGroup n ∉ (getSecurityGroup w).calls) ∧
    (w.describeSecurityGroups = Except.error ApiError.genericErr →
      ∀ sg, w.createSecurityGroup = Except.ok sg →
        ApiCall.createSecurityGroup groupName ∈ (getSecurityGroup w).calls ∧
        (getSecurityGroup w).groupId = sg.groupId) := by
  refine ⟨?_, ?_, ?_⟩
  · intro hd sg hc
    simp [getSecurityGroup, getSecurityGroupCreate, hd, hc]
  · intro code hcode hd
    simp [getSecurityGroup, hd, hcode]
  · intro hd sg hc
    simp [getSecurityGroup, getSecurityGroupCreate, hd, hc]

/-- C1 witness: the three branches of the amended claim instantiated at
concrete worlds. -/
theorem c1_amended_lookup_error_dispatch_witness :
    ((getSecurityGroup c1WorldNotFound).calls =
        [ApiCall.describeSecurityGroups groupName, ApiCall.createSecurityGroup groupName,
         ApiCall.authorizeSecurityGroupIngress] ∧
      (getSecurityGroup c1WorldNotFound).groupId = SecurityGroup.groupId ⟨"sg-a"⟩) ∧
    ((getSecurityGroup c1WorldOther).groupId = "" ∧
      ∀ n, ApiCall.createSecurityGroup n ∉ (getSecurityGroup c1WorldOther).calls) ∧
    (ApiCall.createSecurityGroup groupName ∈ (getSecurityGroup c1WorldGeneric).calls ∧
      (getSecurityGroup c1WorldGeneric).groupId = SecurityGroup.groupId ⟨"sg-new"⟩) :=
  ⟨(c1_amended_lookup_error_dispatch c1WorldNotFound).1 rfl ⟨"sg-a"⟩ rfl,
   (c1_amended_lookup_error_dispatch c1WorldOther).2.1 "Throttling" (by decide) rfl,
   (c1_amended_lookup_error_dispatch c1WorldGeneric).2.2 rfl ⟨"sg-new"⟩ rfl⟩

/-- A world in which the group must be created (lookup finds none) and
AuthorizeSecurityGroupIngress fails. -/
def c3WorldAuthFail : World :=
  { describeSecurityGroups := Except.ok []
    createSecurityGroup := Except.ok ⟨"sg-9"⟩
    authorizeIngress := Except.error (ApiError.apiErr "AccessDenied")
    runInstances := Except.ok "i-0"
    createTags := Except.ok ()
    describeInstances := [] }

/-- A world in which the group must be created and CreateSecurityGroup
fails. -/
def c3WorldCreateErr : World :=
  { describeSecurityGroups := Except.ok []
    createSecurityGroup := Except.error (ApiError.apiErr "SecurityGroupLimitExceeded")
    authorizeIngress := Except.ok ()
    runInstances := Except.ok "i-0"
    createTags := Except.ok ()
    describeInstances := [] }

/-- C3 counterexample: with the scripted AuthorizeSecurityGroupIngress
outcome being an error, getSecurityGroup still returns the created group's
identifier "sg-9", not the empty sentinel — the source discards both
return values of the authorize call. -/
theorem c3_counterexample :
    c3WorldAuthFail.authorizeIngress = Except.error (ApiError.apiErr "AccessDenied") ∧
    (getSecurityGroup c3WorldAuthFail).groupId = "sg-9" ∧
    (getSecurityGroup c3WorldAuthFail).groupId ≠ "" :=
  ⟨rfl, by decide, by decide⟩

/-- C3 (amended): on a creation error getSecurityGroup returns the empty
sentinel and reports the condition; an authorization failure, however, is
ignored: whenever creation succeeds, the created group's identifier is
returned regardless of the authorization outcome (the conclusion holds for
every scripted authorize response). -/
theorem c3_amended_create_error_reported (w : World)
    (hlook : w.describeSecurityGroups = Except.ok []) :
    (∀ e, w.createSecurityGroup = Except.error e →
      (getSecurityGroup w).groupId = "" ∧
      Report.sgCreateError ∈ (getSecurityGroup w).reports) ∧
    (∀ sg, w.createSecurityGroup = Except.ok sg →
      ApiCall.authorizeSecurityGroupIngress ∈ (getSecurityGroup w).calls ∧
      (getSecurityGroup w).groupId = sg.groupId) := by
  constructor
  · intro e hc
    simp [getSecurityGroup, getSecurityGroupCreate, hlook, hc]
  · intro sg hc
    simp [getSecurityGroup, getSecurityGroupCreate, hlook, hc]

/-- C3 witness: the two branches of the amended claim instantiated at
concrete worlds (the success branch at a world whose authorize call
errors). -/
theorem c3_amended_create_error_reported_witness :
    ((getSecurityGroup c3WorldCreateErr).groupId = "" ∧
      Report.sgCreateError ∈ (getSecurityGroup c3WorldCreateErr).reports) ∧
    (ApiCall.authorizeSecurityGroupIngress ∈ (getSecurityGroup c3WorldAuthFail).calls ∧
      (getSecurityGroup c3WorldAuthFail).groupId = SecurityGroup.groupId ⟨"sg-9"⟩) :=
  ⟨(c3_amended_create_error_reported c3WorldCreateErr rfl).1
      (ApiError.apiErr "SecurityGroupLimitExceeded") rfl,
   (c3_amended_create_error_reported c3WorldAuthFail rfl).2 ⟨"sg-9"⟩ rfl⟩

/-- C4: with an empty image identifier, main issues no remote API call at
all, prints the missing-input diagnostic, and returns without opening a
browser — whatever the scripted world would have answered. -/
theorem c4_empty_ami_no_api_calls (w : World) :
    main "" w = { calls := [], reports := [Report.missingAmi], browserUrl := none } := by
  simp [main]

/-- A world in which the group "wordpress-sg" already exists. -/
def c5World : World :=
  { describeSecurityGroups := Except.ok [⟨"sg-exists"⟩]
    createSecurityGroup := Except.ok ⟨"sg-dup"⟩
    authorizeIngress := Except.ok ()
    runInstances := Except.ok "i-0"
    createTags := Except.ok ()
    describeInstances := [] }

/-- C5: whenever the lookup for the fixed name succeeds with at least one
group, getSecurityGroup issues only the lookup call — in particular it
never calls CreateSecurityGroup, for any name — and returns the existing
group's identifier; hence a run against a state where the rule set exists
never creates a duplicate. -/
theorem c5_existing_group_idempotent (w : World) (g : SecurityGroup)
    (gs : List SecurityGroup)
    (h : w.describeSecurityGroups = Except.ok (g :: gs)) :
    (getSecurityGroup w).groupId = g.groupId ∧
    (getSecurityGroup w).calls = [ApiCall.describeSecurityGroups groupName] ∧
    ∀ n, ApiCall.createSecurityGroup n ∉ (getSecurityGroup w).calls := by
  simp [getSecurityGroup, h]

/-- C5 witness: at a world where "wordpress-sg" already resolves to
"sg-exists", no create is issued and the existing id is returned. -/
theorem c5_existing_group_idempotent_witness :
    (getSecurityGroup c5World).groupId = SecurityGroup.groupId ⟨"sg-exists"⟩ ∧
    (getSecurityGroup c5World).calls = [ApiCall.describeSecurityGroups groupName] ∧
    ∀ n, ApiCall.createSecurityGroup n ∉ (getSecurityGroup c5World).calls :=
  c5_existing_group_idempotent c5World ⟨"sg-exists"⟩ [] rfl

/-- A world in which RunInstances succeeds with "i-abc" but CreateTags
fails. -/
def c8World : World :=
  { describeSecurityGroups := Except.ok [⟨"sg-1"⟩]
    createSecurityGroup := Except.ok ⟨"sg-1"⟩
    authorizeIngress := Except.ok ()
    runInstances := Except.ok "i-abc"
    createTags := Except.error (ApiError.apiErr "TagLimitExceeded")
    describeInstances := [] }

/-- C8: whenever the create-instance request succeeds and the subsequent
tag request fails, createInstance still returns the created instance's
identifier; the tagging failure is reported (printed) but never changes
the returned value. -/
theorem c8_tag_failure_nonfatal (w : World) (imageId instId : String) (e : ApiError)
    (hrun : w.runInstances = Except.ok instId)
    (htag : w.createTags = Except.error e) :
    (createInstance w imageId).instanceId = instId ∧
    Report.tagError ∈ (createInstance w imageId).reports := by
  simp [createInstance, setTagName, hrun, htag]

/-- C8 witness: at a world where RunInstances yields "i-abc" and CreateTags
errors, createInstance returns "i-abc" and reports the tag failure. -/
theorem c8_tag_failure_nonfatal_witness :
    (createInstance c8World "ami-123").instanceId = "i-abc" ∧
    Report.tagError ∈ (createInstance c8World "ami-123").reports :=
  c8_tag_failure_nonfatal c8World "ami-123" "i-abc"
    (ApiError.apiErr "TagLimitExceeded") rfl rfl

end AwsWp
